import Mathlib

/-!
Shallow embedding of the `PupTelemetry` client (`src/telemetry.ts`, the
file-mailbox variant, and `src/unnamed/part_000`, the supervisor-relay
variant) and proofs about its observable behaviour.

Conventions:
* JavaScript values read from the environment are `Option String`
  (`none` = the variable is unset); JS truthiness of such a value is
  `truthy` below (unset and the empty string are falsy).
* JSON-representable values are the inductive `Json`; a possibly-absent
  (`undefined`) value is `Option Json`.
* Network / filesystem side effects of `emit` are reified as a list of
  `EmitEffect`s in program order.
* The watchdog / close lifecycle is a small-step relation on `Instance`.
-/

namespace PupTelemetry

/-- A JSON-representable value, as produced by the runtime JSON codec. -/
inductive Json where
  | null
  | bool (b : Bool)
  | num (q : ℚ)
  | str (s : String)
  | arr (elems : List Json)
  | obj (fields : List (String × Json))
  deriving Repr

/-- JS truthiness of an environment read: unset and empty string are falsy. -/
def truthy : Option String → Bool
  | none => false
  | some s => s != ""

/-- The environment-style configuration read through `getEnv` in the source,
plus the `isDir` probe result for the temp-storage path. -/
structure Env where
  pupApiHostname : Option String
  pupApiPort : Option String
  pupApiToken : Option String
  pupTempStorage : Option String
  tempStorageIsDir : Bool
  pupProcessId : Option String

/-- JS property access `j.key`: field lookup on an object, `undefined`
(`none`) otherwise. -/
def getField (j : Json) (key : String) : Option Json :=
  match j with
  | .obj fields => fields.lookup key
  | _ => none

/-- The message object built on the peer send path
(`const message = [..] event, eventData [..]`, telemetry.ts line 213), as the
JSON structure that `JSON.stringify` serializes: `undefined` fields are
dropped by `JSON.stringify`, so an absent `eventData` yields no field. -/
def wireJson (event : String) (eventData : Option Json) : Json :=
  Json.obj (("event", Json.str event) ::
    (match eventData with
     | none => []
     | some d => [("eventData", d)]))

/-- The `IpcEnvelope` of the data model: target process id, event name,
optional JSON payload. -/
structure IpcEnvelope where
  target : String
  event : String
  eventData : Option Json

/-- Encoding of an envelope on the peer send path: only `event` and
`eventData` enter the serialized message (telemetry.ts lines 213 and 217);
the target only selects the mailbox path. -/
def encodePeer (e : IpcEnvelope) : Json :=
  wireJson e.event e.eventData

/-- Decoding on the inbound mailbox path (telemetry.ts lines 132-135):
the code reads `parsedMessage.event` and `parsedMessage.eventData` and
dispatches that pair; no other field is consulted. -/
def decodePeer (j : Json) : Option Json × Option Json :=
  (getField j "event", getField j "eventData")

/-- One observable side effect of a call to `emit`. -/
inductive EmitEffect where
  | sendTelemetry (baseUrl token : String) (data : Option Json)
  | mailboxWrite (path : String) (payload : Json)
  | sendIpc (baseUrl token : String) (target event : String) (eventData : Option Json)
  deriving Repr

/-- The event name carried inside an emit effect, when any is: a
`sendTelemetry` call transmits only the data, a relay `sendIpc` call carries
its event field, a mailbox write carries the `event` field of its payload. -/
def effectEvent : EmitEffect → Option String
  | .sendTelemetry _ _ _ => none
  | .mailboxWrite _ payload =>
      match getField payload "event" with
      | some (.str s) => some s
      | _ => none
  | .sendIpc _ _ _ event _ => some event

/-- Whether an effect is a write into a peer file mailbox. -/
def EmitEffect.isMailbox : EmitEffect → Bool
  | .mailboxWrite _ _ => true
  | _ => false

/-- Whether an effect is a call on the supervisor telemetry/report path. -/
def EmitEffect.isTelemetryCall : EmitEffect → Bool
  | .sendTelemetry _ _ _ => true
  | _ => false

/-- Whether an effect is issued over the supervisor's secure channel. -/
def EmitEffect.isSecureChannel : EmitEffect → Bool
  | .sendTelemetry _ _ _ => true
  | .sendIpc _ _ _ _ _ => true
  | _ => false

/-- `emit` of the file-mailbox variant (telemetry.ts lines 187-226):
target `"main"` goes through the REST client's `sendTelemetry` when the
endpoint triple is configured (silently skipped otherwise); any other target
is a JSON message written to the target-specific mailbox file when the temp
storage is a directory and the target id is truthy. -/
def emitFile (env : Env) (targetProcessId event : String) (eventData : Option Json) :
    List EmitEffect :=
  if targetProcessId = "main" then
    if truthy env.pupApiHostname && truthy env.pupApiPort && truthy env.pupApiToken then
      [.sendTelemetry
        ("http://" ++ env.pupApiHostname.getD "" ++ ":" ++ env.pupApiPort.getD "")
        (env.pupApiToken.getD "") eventData]
    else []
  else
    if truthy env.pupTempStorage && env.tempStorageIsDir && (targetProcessId != "") then
      [.mailboxWrite (env.pupTempStorage.getD "" ++ "/." ++ targetProcessId ++ ".ipc")
        (wireJson event eventData)]
    else []

/-- `emit` of the supervisor-relay variant (part_000 lines 178-203): when
the endpoint triple is configured, target `"main"` goes through
`sendTelemetry` and any other target through `sendIpc` with an
`ApiIpcData` of target, event and eventData; otherwise nothing is sent. -/
def emitRelay (env : Env) (targetProcessId event : String) (eventData : Option Json) :
    List EmitEffect :=
  if truthy env.pupApiHostname && truthy env.pupApiPort && truthy env.pupApiToken then
    let baseUrl := "http://" ++ env.pupApiHostname.getD "" ++ ":" ++ env.pupApiPort.getD ""
    let token := env.pupApiToken.getD ""
    if targetProcessId = "main" then
      [.sendTelemetry baseUrl token eventData]
    else
      [.sendIpc baseUrl token targetProcessId event eventData]
  else []

/-- A JavaScript number argument: either `NaN` (non-numeric) or a finite
numeric value, modelled as a rational. -/
inductive JsNumber where
  | nan
  | num (q : ℚ)

/-- The clamp applied by the constructor before storing `intervalSeconds`
(telemetry.ts lines 71-73): `!intervalSeconds` is true for `NaN` and `0`,
then values below 1 become 1 and values above 180 become 180. -/
def clampInterval (x : JsNumber) : ℚ :=
  match x with
  | .nan => 1
  | .num q =>
    let q1 := if q = 0 ∨ q < 1 then 1 else q
    if q1 > 180 then 180 else q1

/-- Mutable per-instance state: the stored interval, the `aborted` flag,
the pending watchdog timer handle, and whether the event relay is open. -/
structure Instance where
  intervalSeconds : ℚ
  aborted : Bool
  timer : Option Nat
  eventsOpen : Bool
  deriving Repr, DecidableEq

/-- `close()` (telemetry.ts lines 228-240): sets `aborted`, clears the
pending timer, and closes the event relay. A total function: calling it
on any state (already closed included) succeeds. -/
def closeFn (s : Instance) : Instance :=
  { s with aborted := true, timer := none, eventsOpen := false }

/-- The `finally` block of `telemetryWatchdog` (telemetry.ts lines 157-176):
the old timer is cleared, and a fresh timeout is scheduled only when
`aborted` is false. -/
def tickFn (s : Instance) (fresh : Nat) : Instance :=
  if s.aborted then { s with timer := none } else { s with timer := some fresh }

/-- A watchdog tick step: it can fire only while a timer is pending, and
reschedules per `tickFn`. -/
def TickStep (s s' : Instance) : Prop :=
  s.timer.isSome = true ∧ ∃ fresh, s' = tickFn s fresh

/-- A `close()` call step. -/
def CloseStep (s s' : Instance) : Prop :=
  s' = closeFn s

/-- A lifecycle step of the instance: a watchdog tick or a `close()` call. -/
def Step (s s' : Instance) : Prop :=
  TickStep s s' ∨ CloseStep s s'

/-- The state created on first construction (telemetry.ts lines 67-77):
the clamped interval is stored, the watchdog is started (leaving a pending
timer) and the event relay is open. -/
def makeInstance (arg : JsNumber) : Instance :=
  { intervalSeconds := clampInterval arg
    aborted := false
    timer := some 0
    eventsOpen := true }

/-- The singleton constructor / `acquire` (telemetry.ts lines 56-78) acting
on the process-wide instance slot: an existing instance is returned
unchanged and the argument is ignored; otherwise a fresh instance is built
and recorded in the slot. Returns (returned instance, new slot). -/
def acquire (slot : Option Instance) (arg : JsNumber) : Instance × Option Instance :=
  match slot with
  | some inst => (inst, some inst)
  | none =>
    let inst := makeInstance arg
    (inst, some inst)

/-- `acquire` with the constructor's default parameter
(`intervalSeconds = 5`, telemetry.ts line 56). -/
def acquireDefault (slot : Option Instance) : Instance × Option Instance :=
  acquire slot (.num 5)

/-- The field initializer of `intervalSeconds` (telemetry.ts line 44). -/
def intervalFieldInit : ℚ := 15

/-- The default documented in the constructor's doc comment
(telemetry.ts line 53: "default: 15"). -/
def docStatedDefault : ℚ := 15

/-- A raw message handed over by the file IPC; its `data` field may be
absent. -/
structure IpcMessage where
  data : Option String

/-- The inner message loop of `checkIpc` (telemetry.ts lines 129-141) over
one batch. `parse` stands for the runtime `JSON.parse` (`none` = it throws);
`listenerCloses` models the registered listeners: dispatching an event may
call `close()` on the instance. Each message with truthy `data` that parses
is dispatched as the pair (`parsedMessage.event`, `parsedMessage.eventData`);
parse failures are swallowed by the per-message try/catch. The loop itself
never consults `aborted`. -/
def processBatch (parse : String → Option Json) (listenerCloses : Option Json → Bool) :
    Instance → List IpcMessage → Instance × List (Option Json × Option Json)
  | s, [] => (s, [])
  | s, m :: rest =>
    match m.data with
    | none => processBatch parse listenerCloses s rest
    | some d =>
      if d = "" then processBatch parse listenerCloses s rest
      else
        match parse d with
        | none => processBatch parse listenerCloses s rest
        | some j =>
          let ev := getField j "event"
          let ed := getField j "eventData"
          let s1 := if listenerCloses ev then closeFn s else s
          ((processBatch parse listenerCloses s1 rest).1,
           (ev, ed) :: (processBatch parse listenerCloses s1 rest).2)

/-- The outer batch loop of `checkIpc` (telemetry.ts lines 123-143):
before each batch the `aborted` flag is tested and the loop breaks when it
is set; otherwise the whole batch is processed by the inner loop. -/
def runBatches (parse : String → Option Json) (listenerCloses : Option Json → Bool) :
    Instance → List (List IpcMessage) → Instance × List (Option Json × Option Json)
  | s, [] => (s, [])
  | s, b :: rest =>
    if s.aborted then (s, [])
    else
      let s1 := (processBatch parse listenerCloses s b).1
      ((runBatches parse listenerCloses s1 rest).1,
       (processBatch parse listenerCloses s b).2 ++ (runBatches parse listenerCloses s1 rest).2)

/-- `checkIpc` (telemetry.ts lines 112-146): the inbound path starts only
when the temp storage exists and is a directory and the process id is set,
and only when not already aborted. -/
def checkIpc (env : Env) (parse : String → Option Json)
    (listenerCloses : Option Json → Bool) (s : Instance)
    (batches : List (List IpcMessage)) : Instance × List (Option Json × Option Json) :=
  if truthy env.pupTempStorage && env.tempStorageIsDir && truthy env.pupProcessId then
    if s.aborted then (s, []) else runBatches parse listenerCloses s batches
  else (s, [])

/-- The interval stored by a first construction with argument `x`. -/
def storedInterval (x : JsNumber) : ℚ :=
  (acquire none x).1.intervalSeconds

/-- A fully configured environment: supervisor endpoint triple present,
temp storage present and a directory, process id `"w1"`. -/
def envFull : Env :=
  { pupApiHostname := some "h"
    pupApiPort := some "1"
    pupApiToken := some "t"
    pupTempStorage := some "/tmp/pup"
    tempStorageIsDir := true
    pupProcessId := some "w1" }

/-- An environment with no supervisor endpoint configured. -/
def envNoApi : Env :=
  { pupApiHostname := none
    pupApiPort := none
    pupApiToken := none
    pupTempStorage := some "/tmp/pup"
    tempStorageIsDir := true
    pupProcessId := some "w1" }

/-- The payload of the end-to-end example. -/
def levelHigh : Json :=
  Json.obj [("level", Json.str "high")]

/-- The round-trip example envelope. -/
def envW2 : IpcEnvelope :=
  { target := "worker-2", event := "ping", eventData := some (Json.obj [("n", Json.num 42)]) }

/-- A concrete freshly constructed instance used in witnesses. -/
def inst0 : Instance :=
  makeInstance (JsNumber.num 5)

/-- A concrete stand-in for `JSON.parse` used in witnesses: two well-formed
wire messages; everything else fails to parse. -/
def parseDemo (d : String) : Option Json :=
  if d = "A" then some (wireJson "ping" none)
  else if d = "B" then some (wireJson "pong" (some (Json.num 1)))
  else none

/-- A concrete stand-in for `JSON.parse` used in witnesses: message "S"
carries event "stop", message "P" carries event "ping". -/
def parseStopPing (d : String) : Option Json :=
  if d = "S" then some (wireJson "stop" none)
  else if d = "P" then some (wireJson "ping" none)
  else none

/-- A concrete listener set that calls `close()` when it receives the
event named "stop". -/
def closesOnStop : Option Json → Bool
  | some (Json.str s) => s == "stop"
  | _ => false

theorem clampInterval_lt_one {q : ℚ} (hq : q < 1) :
    clampInterval (JsNumber.num q) = 1 := by
  simp only [clampInterval]
  rw [if_pos (Or.inr hq), if_neg (by norm_num : ¬ (1 : ℚ) > 180)]

theorem clampInterval_gt {q : ℚ} (hq : 180 < q) :
    clampInterval (JsNumber.num q) = 180 := by
  simp only [clampInterval]
  have hne : ¬(q = 0 ∨ q < 1) := by
    push_neg; exact ⟨ne_of_gt (by linarith), by linarith⟩
  rw [if_neg hne, if_pos hq]

theorem clampInterval_mem {q : ℚ} (h1 : 1 ≤ q) (h180 : q ≤ 180) :
    clampInterval (JsNumber.num q) = q := by
  simp only [clampInterval]
  have hne : ¬(q = 0 ∨ q < 1) := by
    push_neg; exact ⟨ne_of_gt (by linarith), h1⟩
  rw [if_neg hne, if_neg (not_lt.mpr h180)]

/-- C3: on first construction the stored interval is the clamp of the
argument into [1, 180]: `NaN` (non-numeric) and any value below 1 (zero
included) store 1, any value above 180 stores 180, and any value already in
[1, 180] is stored unchanged. -/
theorem c3_interval_clamped (x : JsNumber) :
    (x = JsNumber.nan → storedInterval x = 1) ∧
    (∀ q : ℚ, x = JsNumber.num q → q < 1 → storedInterval x = 1) ∧
    (∀ q : ℚ, x = JsNumber.num q → 180 < q → storedInterval x = 180) ∧
    (∀ q : ℚ, x = JsNumber.num q → 1 ≤ q → q ≤ 180 → storedInterval x = q) ∧
    (1 ≤ storedInterval x ∧ storedInterval x ≤ 180) := by
  have hv : ∀ y, storedInterval y = clampInterval y := fun _ => rfl
  refine ⟨?_, ?_, ?_, ?_, ?_⟩
  · rintro rfl; rfl
  · rintro q rfl hq
    rw [hv, clampInterval_lt_one hq]
  · rintro q rfl hq
    rw [hv, clampInterval_gt hq]
  · rintro q rfl h1 h180
    rw [hv, clampInterval_mem h1 h180]
  · rw [hv]
    cases x with
    | nan => norm_num [clampInterval]
    | num q =>
      rcases lt_or_le q 1 with h1 | h1
      · rw [clampInterval_lt_one h1]; norm_num
      · rcases le_or_lt q 180 with h180 | h180
        · rw [clampInterval_mem h1 h180]; exact ⟨h1, h180⟩
        · rw [clampInterval_gt h180]; norm_num

/-- C3 witness: the clamp evaluated at the concrete inputs 200 (clamps to
180), 0 (clamps to 1) and 42 (unchanged). -/
theorem c3_interval_clamped_witness :
    storedInterval (JsNumber.num 200) = 180 ∧
    storedInterval (JsNumber.num 0) = 1 ∧
    storedInterval (JsNumber.num 42) = 42 :=
  ⟨(c3_interval_clamped (JsNumber.num 200)).2.2.1 200 rfl (by norm_num),
   (c3_interval_clamped (JsNumber.num 0)).2.1 0 rfl (by norm_num),
   (c3_interval_clamped (JsNumber.num 42)).2.2.2.1 42 rfl (by norm_num) (by norm_num)⟩

/-- C4: a second `acquire` call returns the identical instance recorded by
the first call, and leaves the process-wide slot — hence every field of the
stored instance, the interval included — unchanged, whatever the second
call's argument is. -/
theorem c4_acquire_idempotent (slot : Option Instance) (a1 a2 : JsNumber) :
    (acquire ((acquire slot a1).2) a2).1 = (acquire slot a1).1 ∧
    (acquire ((acquire slot a1).2) a2).2 = (acquire slot a1).2 := by
  cases slot <;> exact ⟨rfl, rfl⟩

/-- C10: with no argument, the constructor's default parameter 5 is stored
(5 is already in [1, 180], so the clamp keeps it): the field initializer 15
is overwritten, and the doc comment's stated default of 15 does not match
the stored value. -/
theorem c10_default_interval_is_5 :
    (acquireDefault none).1.intervalSeconds = 5 ∧
    intervalFieldInit = 15 ∧
    docStatedDefault = 15 ∧
    (acquireDefault none).1.intervalSeconds ≠ intervalFieldInit ∧
    (acquireDefault none).1.intervalSeconds ≠ docStatedDefault := by
  refine ⟨by norm_num [acquireDefault, acquire, makeInstance, clampInterval], rfl, rfl, ?_, ?_⟩ <;>
    norm_num [acquireDefault, acquire, makeInstance, clampInterval, intervalFieldInit,
      docStatedDefault]

/-- C8: when the supervisor endpoint triple is not fully configured (the
conjunction of the three truthiness tests is false), `emit` to target
`"main"` issues no call at all, in both source variants; the embedding is a
total function, so the call completes without raising. -/
theorem c8_no_endpoint_noop (env : Env) (event : String) (d : Option Json)
    (h : (truthy env.pupApiHostname && truthy env.pupApiPort && truthy env.pupApiToken) = false) :
    emitFile env "main" event d = [] ∧ emitRelay env "main" event d = [] := by
  constructor <;> simp [emitFile, emitRelay, h]

/-- C8 witness: with no endpoint configured, `emit("main", "telemetry", none)`
issues no effect in either variant. -/
theorem c8_no_endpoint_noop_witness :
    emitFile envNoApi "main" "telemetry" none = [] ∧
    emitRelay envNoApi "main" "telemetry" none = [] :=
  c8_no_endpoint_noop envNoApi "telemetry" none rfl

theorem emitFile_main (env : Env) (event : String) (d : Option Json) :
    emitFile env "main" event d =
      if truthy env.pupApiHostname && truthy env.pupApiPort && truthy env.pupApiToken then
        [EmitEffect.sendTelemetry
          ("http://" ++ env.pupApiHostname.getD "" ++ ":" ++ env.pupApiPort.getD "")
          (env.pupApiToken.getD "") d]
      else [] := rfl

theorem emitFile_peer (env : Env) (target event : String) (d : Option Json)
    (ht : target ≠ "main") :
    emitFile env target event d =
      if truthy env.pupTempStorage && env.tempStorageIsDir && (target != "") then
        [EmitEffect.mailboxWrite (env.pupTempStorage.getD "" ++ "/." ++ target ++ ".ipc")
          (wireJson event d)]
      else [] := by
  simp only [emitFile, if_neg ht]

theorem emitRelay_main (env : Env) (event : String) (d : Option Json) :
    emitRelay env "main" event d =
      if truthy env.pupApiHostname && truthy env.pupApiPort && truthy env.pupApiToken then
        [EmitEffect.sendTelemetry
          ("http://" ++ env.pupApiHostname.getD "" ++ ":" ++ env.pupApiPort.getD "")
          (env.pupApiToken.getD "") d]
      else [] := rfl

theorem emitRelay_peer (env : Env) (target event : String) (d : Option Json)
    (ht : target ≠ "main") :
    emitRelay env target event d =
      if truthy env.pupApiHostname && truthy env.pupApiPort && truthy env.pupApiToken then
        [EmitEffect.sendIpc
          ("http://" ++ env.pupApiHostname.getD "" ++ ":" ++ env.pupApiPort.getD "")
          (env.pupApiToken.getD "") target event d]
      else [] := by
  simp only [emitRelay]
  rw [if_neg ht]

/-- C2: routing is decided solely by the target: for target `"main"` every
effect of `emit` goes over the supervisor's secure channel and none is a
peer-mailbox write; for any other target no effect is a telemetry/report
call — in both source variants. -/
theorem c2_supervisor_routing (env : Env) (target event : String) (d : Option Json) :
    (∀ e ∈ emitFile env "main" event d, e.isSecureChannel = true ∧ e.isMailbox = false) ∧
    (target ≠ "main" → ∀ e ∈ emitFile env target event d, e.isTelemetryCall = false) ∧
    (∀ e ∈ emitRelay env "main" event d, e.isSecureChannel = true ∧ e.isMailbox = false) ∧
    (target ≠ "main" → ∀ e ∈ emitRelay env target event d, e.isTelemetryCall = false) := by
  refine ⟨?_, ?_, ?_, ?_⟩
  · intro e he
    rw [emitFile_main] at he
    split at he
    · simp only [List.mem_singleton] at he
      subst he
      exact ⟨rfl, rfl⟩
    · simp at he
  · intro ht e he
    rw [emitFile_peer env target event d ht] at he
    split at he
    · simp only [List.mem_singleton] at he
      subst he
      rfl
    · simp at he
  · intro e he
    rw [emitRelay_main] at he
    split at he
    · simp only [List.mem_singleton] at he
      subst he
      exact ⟨rfl, rfl⟩
    · simp at he
  · intro ht e he
    rw [emitRelay_peer env target event d ht] at he
    split at he
    · simp only [List.mem_singleton] at he
      subst he
      rfl
    · simp at he

/-- C2 witness: a concrete peer send (`emit("w2", "ping")` in the mailbox
variant) produces a mailbox write that is not a telemetry/report call. -/
theorem c2_supervisor_routing_witness :
    (EmitEffect.mailboxWrite "/tmp/pup/.w2.ipc" (wireJson "ping" none)).isTelemetryCall
      = false := by
  have hmem : EmitEffect.mailboxWrite "/tmp/pup/.w2.ipc" (wireJson "ping" none) ∈
      emitFile envFull "w2" "ping" none := by
    have h : emitFile envFull "w2" "ping" none =
        [EmitEffect.mailboxWrite "/tmp/pup/.w2.ipc" (wireJson "ping" none)] := rfl
    rw [h]
    exact List.mem_singleton.mpr rfl
  exact (c2_supervisor_routing envFull "w2" "ping" none).2.1 (by decide) _ hmem

/-- C1 counterexample: with the endpoint fully configured,
`emit("main", "alert", level:high)` issues exactly one secure-channel call
in either variant, but that call is a bare `sendTelemetry` carrying no
event name at all — it does not carry the event `"alert"` as the claim
states. -/
theorem c1_counterexample :
    (emitFile envFull "main" "alert" (some levelHigh)).map effectEvent = [none] ∧
    (emitRelay envFull "main" "alert" (some levelHigh)).map effectEvent = [none] ∧
    (none : Option String) ≠ some "alert" :=
  ⟨rfl, rfl, by decide⟩

/-- C1 amended: with hostname, port and token all configured (present and
non-empty), `emit("main", event, data)` results in exactly one call into
the secure channel, a `sendTelemetry` call to the configured endpoint
carrying the data; the event name is not part of the call. Holds in both
source variants. -/
theorem c1_amended_single_telemetry_call (env : Env) (hostname port token : String)
    (hh : env.pupApiHostname = some hostname) (hh1 : hostname ≠ "")
    (hp : env.pupApiPort = some port) (hp1 : port ≠ "")
    (ht : env.pupApiToken = some token) (ht1 : token ≠ "")
    (event : String) (d : Option Json) :
    emitFile env "main" event d =
      [EmitEffect.sendTelemetry ("http://" ++ hostname ++ ":" ++ port) token d] ∧
    emitRelay env "main" event d =
      [EmitEffect.sendTelemetry ("http://" ++ hostname ++ ":" ++ port) token d] := by
  have htr : (truthy env.pupApiHostname && truthy env.pupApiPort &&
      truthy env.pupApiToken) = true := by
    rw [hh, hp, ht]
    simp [truthy, hh1, hp1, ht1]
  refine ⟨?_, ?_⟩
  · rw [emitFile_main, if_pos htr, hh, hp, ht]
    rfl
  · rw [emitRelay_main, if_pos htr, hh, hp, ht]
    rfl

/-- C1 witness: the amended statement evaluated at the concrete environment
and the concrete payload of the claim. -/
theorem c1_amended_single_telemetry_call_witness :
    emitFile envFull "main" "alert" (some levelHigh) =
      [EmitEffect.sendTelemetry "http://h:1" "t" (some levelHigh)] ∧
    emitRelay envFull "main" "alert" (some levelHigh) =
      [EmitEffect.sendTelemetry "http://h:1" "t" (some levelHigh)] :=
  c1_amended_single_telemetry_call envFull "h" "1" "t" rfl (by decide) rfl (by decide) rfl
    (by decide) "alert" (some levelHigh)

/-- C9 counterexample: the wire message built on the peer send path holds
only `event` and `eventData`; for the claim's envelope the decoded
structure has no `target` field although the original target was
`"worker-2"` — a JSON-representable field of the envelope is lost. -/
theorem c9_counterexample :
    getField (encodePeer envW2) "target" = none ∧
    envW2.target = "worker-2" ∧
    decodePeer (encodePeer envW2) =
      (some (Json.str "ping"), some (Json.obj [("n", Json.num 42)])) :=
  ⟨rfl, rfl, rfl⟩

/-- C9 amended: encoding an envelope on the peer send path and decoding it
on the inbound path restores the event name and the eventData exactly (an
absent eventData stays absent); the target is not part of the wire message
— it only selects the mailbox file — and is therefore not restored. -/
theorem c9_amended_roundtrip (e : IpcEnvelope) :
    decodePeer (encodePeer e) = (some (Json.str e.event), e.eventData) := by
  cases e with
  | mk t ev d =>
    cases d with
    | none => rfl
    | some j => rfl

theorem processBatch_cons_noData (parse : String → Option Json)
    (listenerCloses : Option Json → Bool) (s : Instance) (rest : List IpcMessage) :
    processBatch parse listenerCloses s (⟨none⟩ :: rest) =
      processBatch parse listenerCloses s rest := rfl

theorem processBatch_cons_emptyData (parse : String → Option Json)
    (listenerCloses : Option Json → Bool) (s : Instance) (rest : List IpcMessage) :
    processBatch parse listenerCloses s (⟨some ""⟩ :: rest) =
      processBatch parse listenerCloses s rest := rfl

theorem processBatch_cons_unparsed (parse : String → Option Json)
    (listenerCloses : Option Json → Bool) (s : Instance) (d : String)
    (rest : List IpcMessage) (hd : d ≠ "") (hp : parse d = none) :
    processBatch parse listenerCloses s (⟨some d⟩ :: rest) =
      processBatch parse listenerCloses s rest := by
  simp only [processBatch]
  rw [if_neg hd, hp]

theorem processBatch_cons_parsed (parse : String → Option Json)
    (listenerCloses : Option Json → Bool) (s : Instance) (d : String) (j : Json)
    (rest : List IpcMessage) (hd : d ≠ "") (hp : parse d = some j) :
    processBatch parse listenerCloses s (⟨some d⟩ :: rest) =
      ((processBatch parse listenerCloses
          (if listenerCloses (getField j "event") then closeFn s else s) rest).1,
        (getField j "event", getField j "eventData") ::
          (processBatch parse listenerCloses
            (if listenerCloses (getField j "event") then closeFn s else s) rest).2) := by
  simp only [processBatch]
  rw [if_neg hd, hp]

/-- C6: a message whose raw data is absent, empty, or fails to parse is
discarded on its own: processing a batch containing it is identical to
processing the batch without it — the same state results and every other
message, the subsequent ones included, is still dispatched under its own
event name; the loop never aborts on a malformed message. -/
theorem c6_malformed_message_discarded (parse : String → Option Json)
    (listenerCloses : Option Json → Bool) (s : Instance) (m : IpcMessage)
    (pre post : List IpcMessage)
    (hm : ∀ d, m.data = some d → parse d = none) :
    processBatch parse listenerCloses s (pre ++ m :: post) =
      processBatch parse listenerCloses s (pre ++ post) := by
  induction pre generalizing s with
  | nil =>
    simp only [List.nil_append]
    obtain ⟨md⟩ := m
    cases md with
    | none => exact processBatch_cons_noData parse listenerCloses s post
    | some d =>
      by_cases hd : d = ""
      · subst hd
        exact processBatch_cons_emptyData parse listenerCloses s post
      · exact processBatch_cons_unparsed parse listenerCloses s d post hd (hm d rfl)
  | cons a pre ih =>
    simp only [List.cons_append]
    obtain ⟨ad⟩ := a
    cases ad with
    | none =>
      rw [processBatch_cons_noData, processBatch_cons_noData]
      exact ih s
    | some d =>
      by_cases hd : d = ""
      · subst hd
        rw [processBatch_cons_emptyData, processBatch_cons_emptyData]
        exact ih s
      · cases hp : parse d with
        | none =>
          rw [processBatch_cons_unparsed parse listenerCloses s d _ hd hp,
            processBatch_cons_unparsed parse listenerCloses s d _ hd hp]
          exact ih s
        | some j =>
          rw [processBatch_cons_parsed parse listenerCloses s d j _ hd hp,
            processBatch_cons_parsed parse listenerCloses s d j _ hd hp,
            ih]

/-- C6 witness: a batch with a malformed middle message (raw data "oops",
which the parser rejects) is processed exactly like the batch without it:
the valid messages "A" and "B" around it are still dispatched. -/
theorem c6_malformed_message_discarded_witness :
    processBatch parseDemo (fun _ => false) inst0
        [⟨some "A"⟩, ⟨some "oops"⟩, ⟨some "B"⟩] =
      processBatch parseDemo (fun _ => false) inst0 [⟨some "A"⟩, ⟨some "B"⟩] :=
  c6_malformed_message_discarded parseDemo (fun _ => false) inst0 ⟨some "oops"⟩
    [⟨some "A"⟩] [⟨some "B"⟩]
    (fun d hd => by
      simp only [Option.some.injEq] at hd
      subst hd
      rfl)

/-- C7 counterexample: in the batch ["S", "P"] the listener for event
"stop" calls `close()` while the first message is being dispatched — the
state after processing just ["S"] is already aborted — yet the second
message "P" of the same batch is still dispatched: there is no per-message
check of the `aborted` flag inside a batch. -/
theorem c7_counterexample :
    inst0.aborted = false ∧
    (processBatch parseStopPing closesOnStop inst0 [⟨some "S"⟩]).1.aborted = true ∧
    (runBatches parseStopPing closesOnStop inst0 [[⟨some "S"⟩, ⟨some "P"⟩]]).2 =
      [(some (Json.str "stop"), none), (some (Json.str "ping"), none)] :=
  ⟨rfl, rfl, rfl⟩

/-- C7 amended: the inbound loop checks `aborted` before entering and
before each batch, exiting promptly — from an aborted state no batch is
processed and nothing is dispatched; within a batch, however, there is no
per-message check: the dispatches of a batch do not depend on the instance
state at all, so messages after a mid-batch `close()` are still
dispatched. -/
theorem c7_amended_batch_level_abort_check (parse : String → Option Json)
    (listenerCloses : Option Json → Bool) (s s' : Instance)
    (bs : List (List IpcMessage)) (b : List IpcMessage) :
    (s.aborted = true → runBatches parse listenerCloses s bs = (s, [])) ∧
    (processBatch parse listenerCloses s b).2 =
      (processBatch parse listenerCloses s' b).2 := by
  constructor
  · intro hab
    cases bs with
    | nil => rfl
    | cons b' rest =>
      simp only [runBatches, hab, if_true]
  · induction b generalizing s s' with
    | nil => rfl
    | cons a rest ih =>
      obtain ⟨ad⟩ := a
      cases ad with
      | none =>
        rw [processBatch_cons_noData, processBatch_cons_noData]
        exact ih s s'
      | some d =>
        by_cases hd : d = ""
        · subst hd
          rw [processBatch_cons_emptyData, processBatch_cons_emptyData]
          exact ih s s'
        · cases hp : parse d with
          | none =>
            rw [processBatch_cons_unparsed parse listenerCloses s d _ hd hp,
              processBatch_cons_unparsed parse listenerCloses s' d _ hd hp]
            exact ih s s'
          | some j =>
            rw [processBatch_cons_parsed parse listenerCloses s d j _ hd hp,
              processBatch_cons_parsed parse listenerCloses s' d j _ hd hp]
            exact congrArg
              (fun l => (getField j "event", getField j "eventData") :: l) (ih _ _)

/-- C7 witness for the amended statement: from an already-closed instance
the loop exits with no dispatch, and the dispatches of the batch ["P"] are
the same whether the instance is open or closed. -/
theorem c7_amended_batch_level_abort_check_witness :
    runBatches parseStopPing closesOnStop (closeFn inst0) [[⟨some "P"⟩]] =
      (closeFn inst0, []) ∧
    (processBatch parseStopPing closesOnStop inst0 [⟨some "P"⟩]).2 =
      (processBatch parseStopPing closesOnStop (closeFn inst0) [⟨some "P"⟩]).2 :=
  ⟨(c7_amended_batch_level_abort_check parseStopPing closesOnStop (closeFn inst0) inst0
      [[⟨some "P"⟩]] []).1 rfl,
   (c7_amended_batch_level_abort_check parseStopPing closesOnStop inst0 (closeFn inst0)
      [] [⟨some "P"⟩]).2⟩

/-- C5: the `aborted` flag is monotonic — no lifecycle step (watchdog tick
or `close()`) ever resets it; from any state reached after a `close()`, the
flag stays true, the timer slot stays empty so no new timer is ever
scheduled, and no watchdog tick step can fire; and a second `close()` is a
no-op on an already-closed state (the embedding of `close` is a total
function, so it never raises). -/
theorem c5_aborted_monotonic_after_close (s0 : Instance) :
    (∀ s s', Step s s' → s.aborted = true → s'.aborted = true) ∧
    (∀ s', Relation.ReflTransGen Step (closeFn s0) s' →
      s'.aborted = true ∧ s'.timer = none ∧ ∀ s'', ¬ TickStep s' s'') ∧
    closeFn (closeFn s0) = closeFn s0 := by
  have hmono : ∀ s s', Step s s' → s.aborted = true → s'.aborted = true := by
    rintro s s' (⟨hsome, fresh, rfl⟩ | rfl) hab
    · simp [tickFn, hab]
    · rfl
  have hinv : ∀ s', Relation.ReflTransGen Step (closeFn s0) s' →
      s'.aborted = true ∧ s'.timer = none := by
    intro s' h
    induction h with
    | refl => exact ⟨rfl, rfl⟩
    | tail h1 h2 ih =>
      rcases h2 with ⟨hsome, fresh, rfl⟩ | rfl
      · rw [ih.2] at hsome
        simp at hsome
      · exact ⟨rfl, rfl⟩
  refine ⟨hmono, ?_, rfl⟩
  intro s' h
  refine ⟨(hinv s' h).1, (hinv s' h).2, ?_⟩
  rintro s'' ⟨hsome, -⟩
  rw [(hinv s' h).2] at hsome
  simp at hsome

/-- C5 witness: a second `close()` on an already-closed concrete instance
keeps the flag set; the closed instance has no pending timer and admits no
tick step. -/
theorem c5_aborted_monotonic_after_close_witness :
    (closeFn (closeFn inst0)).aborted = true ∧
    (closeFn inst0).timer = none ∧
    ¬ TickStep (closeFn inst0) inst0 :=
  ⟨(c5_aborted_monotonic_after_close inst0).1 (closeFn inst0) (closeFn (closeFn inst0))
      (Or.inr rfl) rfl,
   ((c5_aborted_monotonic_after_close inst0).2.1 (closeFn inst0)
      Relation.ReflTransGen.refl).2.1,
   ((c5_aborted_monotonic_after_close inst0).2.1 (closeFn inst0)
      Relation.ReflTransGen.refl).2.2 inst0⟩

end PupTelemetry
